import Mathlib

/-!
Verification of the product-catalog backend (`src/main.py`).

The program is a small FastAPI application over a document store.  We give a
shallow embedding: documents are association lists of string keys and dynamic
values, Python floats are modelled as rationals (no claim involves rounding,
only exact coercion), and each endpoint handler becomes a Lean function that
passes the database state explicitly and returns `Except` for HTTP errors.

The `database` module (`db`, `create_document`, `get_documents`) imported by
`main.py` is not part of the sources; its behaviour is modelled from the
specification's Storage Accessor contract (§4.1), and definitions doing so say
`Modelled from the spec:` in their doc comment.
-/

set_option autoImplicit false

namespace AthleticStore

/-- Equality of `Except` results is decidable, so that concrete endpoint
outcomes can be checked by `decide`. -/
instance {ε α : Type} [DecidableEq ε] [DecidableEq α] : DecidableEq (Except ε α)
  | .ok a, .ok b =>
    if h : a = b then .isTrue (by rw [h])
    else .isFalse (fun hh => by cases hh; exact h rfl)
  | .ok _, .error _ => .isFalse (fun hh => by cases hh)
  | .error _, .ok _ => .isFalse (fun hh => by cases hh)
  | .error e, .error e' =>
    if h : e = e' then .isTrue (by rw [h])
    else .isFalse (fun hh => by cases hh; exact h rfl)

/-- A dynamic (Python/BSON-like) value stored in a document field.
Numbers are modelled as rationals standing for Python floats; `oid n` models a
storage-generated `ObjectId`; `null` models Python `None`. -/
inductive Value where
  | str (s : String)
  | num (q : ℚ)
  | bool (b : Bool)
  | oid (n : Nat)
  | null
  deriving DecidableEq, Repr

/-- A document: an ordered key/value mapping, as a Python dict. -/
abbrev Doc := List (String × Value)

/-- First value stored under key `k` (Python `d[k]` / `d.get(k)`). -/
def lookup (k : String) : Doc → Option Value
  | [] => none
  | (k', v) :: d => if k' = k then some v else lookup k d

/-- Python `d[k] = v`: update the existing entry in place, else append. -/
def setKey (k : String) (v : Value) : Doc → Doc
  | [] => [(k, v)]
  | (k', v') :: d => if k' = k then (k, v) :: d else (k', v') :: setKey k v d

/-- Python `d.pop(k)`: the dict with key `k` removed. -/
def popKey (k : String) : Doc → Doc
  | [] => []
  | (k', v) :: d => if k' = k then popKey k d else (k', v) :: popKey k d

/-- Models Python `str(...)` on stored values.  The exact rendering of an
`ObjectId` is irrelevant to the claims; we only rely on it being a non-empty
string, as the spec's id contract demands. -/
def pyStr : Value → String
  | .str s => s
  | .num q => toString q
  | .bool b => if b then "True" else "False"
  | .oid n => "oid-" ++ toString n
  | .null => "None"

/-- Models Python `float(...)` on a decimal string literal: optional sign,
digits, optional single decimal point; anything else raises (returns `none`).
Python also strips surrounding whitespace.  The value is assembled with
integer arithmetic and a single `mkRat`, so that it evaluates by kernel
reduction. -/
def pyFloatOfString (s : String) : Option ℚ :=
  let cs := ((s.toList.dropWhile Char.isWhitespace).reverse.dropWhile
    Char.isWhitespace).reverse
  let signed : Bool × List Char :=
    match cs with
    | '-' :: rest => (true, rest)
    | '+' :: rest => (false, rest)
    | _ => (false, cs)
  let intPart := signed.2.takeWhile (fun c => c ≠ '.')
  let rest := signed.2.dropWhile (fun c => c ≠ '.')
  let digits? : List Char → Option Nat := fun l =>
    if l.all Char.isDigit then some (l.foldl (fun n c => n * 10 + (c.toNat - 48)) 0)
    else none
  let mk : Nat → Nat → ℚ := fun n den =>
    mkRat (if signed.1 then -(n : Int) else (n : Int)) den
  match rest with
  | [] =>
    if intPart = [] then none
    else (digits? intPart).map (fun i => mk i 1)
  | _ :: frac =>
    if intPart = [] && frac = [] then none
    else do
      let i ← digits? intPart
      let f ← digits? frac
      pure (mk (i * 10 ^ frac.length + f) (10 ^ frac.length))

/-- Models Python `float(v)` on a stored value: numbers pass through, booleans
become 0/1, strings are parsed; `None` and object ids raise (`none`). -/
def pyFloat : Value → Option ℚ
  | .num q => some q
  | .bool b => some (if b then 1 else 0)
  | .str s => pyFloatOfString s
  | .oid _ => none
  | .null => none

/-- `main.py` lines 81-82: if `doc.get("_id")` is not `None`, pop `_id` and
store its string form under `id`. -/
def _serialize_id_step (doc : Doc) : Doc :=
  match lookup "_id" doc with
  | none => doc
  | some v =>
    if v = .null then doc
    else setKey "id" (.str (pyStr v)) (popKey "_id" doc)

/-- `main.py` lines 84-88: if a `price` key is present, try to coerce its
value to float, keeping the original value when `float(...)` raises. -/
def _serialize_price_step (d : Doc) : Doc :=
  match lookup "price" d with
  | none => d
  | some pv =>
    match pyFloat pv with
    | some q => setKey "price" (.num q) d
    | none => d

/-- `main.py` lines 77-89, `_serialize_product`: an empty document is returned
as is; otherwise the `_id` field is re-exposed as the string field `id` and
`price` is coerced to float.  (`dict(doc)` copies, so the input is not
mutated — in the embedding the transform is a pure function.) -/
def _serialize_product (doc : Doc) : Doc :=
  if doc = [] then doc
  else _serialize_price_step (_serialize_id_step doc)

/-- Modelled from the spec: the document store behind the missing `database`
module.  Only the `product` collection is ever addressed by `main.py`, so the
state is that one collection (documents in storage order) together with the
counter generating fresh ids. -/
structure DB where
  product : List Doc
  nextId : Nat
  deriving DecidableEq, Repr

/-- Modelled from the spec: `create_document` of the missing `database` module
(§4.1 `insert`): persists the record into the `product` collection with a newly
generated unique `_id`, and returns that identifier in string form. -/
def create_document (record : Doc) (db : DB) : String × DB :=
  let oid := db.nextId
  (pyStr (.oid oid),
   { product := db.product ++ [record ++ [("_id", Value.oid oid)]],
     nextId := oid + 1 })

/-- A document matches a filter iff every filter field is present with exactly
that value (empty filter matches all). -/
def matchesFilter (filt : Doc) (d : Doc) : Bool :=
  filt.all (fun kv => lookup kv.1 d = some kv.2)

/-- Modelled from the spec: `get_documents` of the missing `database` module
(§4.1 `query`): up to `limit` documents of the `product` collection matching
the filter, in storage order.  The handler passes `limit : int`; a
non-positive limit yields no documents. -/
def get_documents (filt : Doc) (limit : Int) (db : DB) : List Doc :=
  (db.product.filter (fun d => matchesFilter filt d)).take limit.toNat

/-- An `HTTPException` as raised by the handlers. -/
structure HTTPError where
  status_code : Nat
  detail : String
  deriving DecidableEq, Repr

/-- A validated create-product request body (`main.py` lines 20-26,
`ProductIn`).  The `ge=0` constraint on `price` is enforced by the validation
layer, not by this type. -/
structure ProductIn where
  title : String
  description : Option String
  price : ℚ
  category : String
  in_stock : Bool
  image_url : Option String
  deriving DecidableEq, Repr

/-- The document `create_document` receives for a validated body (the model's
fields in declaration order; absent optionals stored as `None`). -/
def productInDoc (p : ProductIn) : Doc :=
  [("title", .str p.title),
   ("description", match p.description with | some s => .str s | none => .null),
   ("price", .num p.price),
   ("category", .str p.category),
   ("in_stock", .bool p.in_stock),
   ("image_url", match p.image_url with | some s => .str s | none => .null)]

/-- A raw create-product request body before validation: each schema field
either absent or present. -/
structure RawProductIn where
  title : Option String
  description : Option String
  price : Option ℚ
  category : Option String
  in_stock : Option Bool
  image_url : Option String
  deriving DecidableEq, Repr

/-- Modelled from the spec: the framework validation applied to the `ProductIn`
schema before the handler runs — `title`, `price`, `category` required,
`price >= 0`, `in_stock` defaulting to true (spec §4.3 Create). -/
def validateProductIn (r : RawProductIn) : Except (List String) ProductIn :=
  match r.title, r.price, r.category with
  | some t, some q, some c =>
    if 0 ≤ q then
      .ok ⟨t, r.description, q, c, r.in_stock.getD true, r.image_url⟩
    else .error ["price: ensure this value is greater than or equal to 0"]
  | t?, q?, c? =>
    .error ((if t? = none then ["title: field required"] else [])
      ++ (if q? = none then ["price: field required"] else [])
      ++ (if c? = none then ["category: field required"] else []))

/-- `main.py` line 96: the query filter — `{"category": category}` if
`category` is truthy (present and non-empty), else the empty filter. -/
def filtOf : Option String → Doc
  | none => []
  | some c => if c = "" then [] else [("category", .str c)]

/-- `main.py` lines 92-98, `list_products`: 500 if the database handle is
`None`; otherwise query the `product` collection with the category filter and
the limit (default 50) and serialize each result. -/
def list_products (db? : Option DB) (category : Option String := none)
    (limit : Int := 50) : Except HTTPError (List Doc) :=
  match db? with
  | none => .error ⟨500, "Database not configured"⟩
  | some db =>
    .ok ((get_documents (filtOf category) limit db).map _serialize_product)

/-- `main.py` lines 101-106, `create_product`: 500 if the database handle is
`None`; otherwise insert the validated record and return the new id.  The
resulting database state is returned alongside. -/
def create_product (db? : Option DB) (product : ProductIn) :
    Except HTTPError String × Option DB :=
  match db? with
  | none => (.error ⟨500, "Database not configured"⟩, none)
  | some db =>
    let r := create_document (productInDoc product) db
    (.ok r.1, some r.2)

/-- The create endpoint as the caller sees it: the framework validates the raw
body (422, storage untouched, on failure) and only then runs the
`create_product` handler. -/
def create_endpoint (db? : Option DB) (raw : RawProductIn) :
    Except HTTPError String × Option DB :=
  match validateProductIn raw with
  | .error _ => (.error ⟨422, "Unprocessable Entity"⟩, db?)
  | .ok p => create_product db? p

/-- The response of the seed endpoint. -/
structure SeedResp where
  status : String
  seeded : Bool
  message : Option String
  count : Option Nat
  deriving DecidableEq, Repr

/-- `main.py` lines 117-150: the four predefined sample products. -/
def samples : List Doc :=
  [[("title", .str "AirSwift Runner"),
    ("description", .str "Lightweight running shoes with responsive foam for daily miles."),
    ("price", .num (mkRat 12999 100)),
    ("category", .str "Running"),
    ("in_stock", .bool true),
    ("image_url", .str "https://images.unsplash.com/photo-1542291026-7eec264c27ff?q=80&w=1200&auto=format&fit=crop")],
   [("title", .str "CourtPro 2"),
    ("description", .str "Classic court silhouette remastered with premium leather."),
    ("price", .num (mkRat 99 1)),
    ("category", .str "Lifestyle"),
    ("in_stock", .bool true),
    ("image_url", .str "https://images.unsplash.com/photo-1543508282-6319a3e2621f?q=80&w=1200&auto=format&fit=crop")],
   [("title", .str "TrailForce GTX"),
    ("description", .str "All-terrain traction with waterproof protection for the wild."),
    ("price", .num (mkRat 1495 10)),
    ("category", .str "Trail"),
    ("in_stock", .bool true),
    ("image_url", .str "https://images.unsplash.com/photo-1542291026-8c1f1a8a261c?q=80&w=1200&auto=format&fit=crop")],
   [("title", .str "Flex Studio"),
    ("description", .str "Versatile training shoes built for HIIT, strength and more."),
    ("price", .num (mkRat 119 1)),
    ("category", .str "Training"),
    ("in_stock", .bool true),
    ("image_url", .str "https://images.unsplash.com/photo-1542291026-94d8a1b13972?q=80&w=1200&auto=format&fit=crop")]]

/-- `main.py` lines 109-154, `seed_products`: 500 if the database handle is
`None`; if the `product` collection already holds a document, report not
seeded and change nothing; otherwise insert the four samples in order and
report seeded with the sample count.  (`count_documents({})` is the §4.1
`count` of the modelled store: the collection's length.) -/
def seed_products (db? : Option DB) : Except HTTPError SeedResp × Option DB :=
  match db? with
  | none => (.error ⟨500, "Database not configured"⟩, none)
  | some db =>
    let existing := db.product.length
    if existing > 0 then
      (.ok ⟨"ok", false, some "Products already exist", none⟩, some db)
    else
      let db' := samples.foldl (fun acc s => (create_document s acc).2) db
      (.ok ⟨"ok", true, none, some samples.length⟩, some db')

/-- The diagnostics view of a connected database handle: its `name` attribute
when it has one, and the outcome of `list_collection_names()` — a list of
names, or the message of the exception it raised. -/
structure DiagDB where
  dbName : Option String
  listCollections : Except String (List String)
  deriving Repr

/-- The structured status object returned by the diagnostics endpoint. -/
structure DiagResponse where
  backend : String
  database : String
  database_url : String
  database_name : String
  connection_status : String
  collections : List String
  deriving DecidableEq, Repr

/-- `main.py` lines 39-72, `test_database`: builds the status object field by
field.  `u` / `v` say whether the `DATABASE_URL` / `DATABASE_NAME` environment
variables are set; lines 69-70 overwrite `database_url` and `database_name`
from them unconditionally at the end, so the values assigned inside the `try`
never survive.  Introspection failure is caught and reported inside the
`database` field only. -/
def test_database (db? : Option DiagDB) (u v : Bool) : DiagResponse :=
  let database :=
    match db? with
    | none => "⚠️  Available but not initialized"
    | some d =>
      match d.listCollections with
      | .ok _ => "✅ Connected & Working"
      | .error e => "⚠️  Connected but Error: " ++ e.take 50
  let collections :=
    match db? with
    | none => []
    | some d =>
      match d.listCollections with
      | .ok cs => cs.take 10
      | .error _ => []
  { backend := "✅ Running"
    database := database
    database_url := if u then "✅ Set" else "❌ Not Set"
    database_name := if v then "✅ Set" else "❌ Not Set"
    connection_status := match db? with | none => "Not Connected" | some _ => "Connected"
    collections := collections }

/-! ### Helper lemmas about the dictionary operations and serialization -/

theorem lookup_setKey_self (k : String) (v : Value) (d : Doc) :
    lookup k (setKey k v d) = some v := by
  induction d with
  | nil => simp [setKey, lookup]
  | cons kv d ih =>
    obtain ⟨a, w⟩ := kv
    by_cases hak : a = k
    · subst hak; simp [setKey, lookup]
    · simp [setKey, lookup, hak, ih]

theorem lookup_setKey_ne (k k' : String) (h : k' ≠ k) (v : Value) (d : Doc) :
    lookup k' (setKey k v d) = lookup k' d := by
  induction d with
  | nil => simp [setKey, lookup, Ne.symm h]
  | cons kv d ih =>
    obtain ⟨a, w⟩ := kv
    by_cases hak : a = k
    · subst hak; simp [setKey, lookup, Ne.symm h]
    · simp [setKey, lookup, hak, ih]

theorem lookup_popKey_ne (k k' : String) (h : k' ≠ k) (d : Doc) :
    lookup k' (popKey k d) = lookup k' d := by
  induction d with
  | nil => rfl
  | cons kv d ih =>
    obtain ⟨a, w⟩ := kv
    by_cases hak : a = k
    · subst hak; simp [popKey, lookup, Ne.symm h, ih]
    · simp [popKey, lookup, hak, ih]

/-- The price-coercion step touches no key other than `price`. -/
theorem lookup_price_step_ne (k : String) (h : k ≠ "price") (d : Doc) :
    lookup k (_serialize_price_step d) = lookup k d := by
  unfold _serialize_price_step
  split
  · rfl
  · split
    · exact lookup_setKey_ne "price" k h _ d
    · rfl

/-- The id-renaming step touches no key other than `_id` and `id`. -/
theorem lookup_id_step_ne (k : String) (h1 : k ≠ "_id") (h2 : k ≠ "id") (d : Doc) :
    lookup k (_serialize_id_step d) = lookup k d := by
  unfold _serialize_id_step
  split
  · rfl
  · split
    · rfl
    · rw [lookup_setKey_ne "id" k h2, lookup_popKey_ne "_id" k h1]

/-- Serialization touches no key other than `_id`, `id` and `price`. -/
theorem lookup_serialize_ne (k : String) (h1 : k ≠ "_id") (h2 : k ≠ "id")
    (h3 : k ≠ "price") (d : Doc) :
    lookup k (_serialize_product d) = lookup k d := by
  unfold _serialize_product
  split
  · rfl
  · rw [lookup_price_step_ne k h3, lookup_id_step_ne k h1 h2]

/-- Serializing a freshly inserted validated product renames its generated
`_id` to the external `id` string and leaves every other field in place (the
price is already a float, so its coercion is the identity). -/
theorem serialize_productInDoc (p : ProductIn) (n : Nat) :
    _serialize_product (productInDoc p ++ [("_id", .oid n)])
      = productInDoc p ++ [("id", .str (pyStr (.oid n)))] := by
  simp [_serialize_product, _serialize_id_step, _serialize_price_step,
    productInDoc, lookup, setKey, popKey, pyFloat, pyStr]

/-- The string form of a generated identifier is never empty. -/
theorem pyStr_oid_ne_empty (n : Nat) : pyStr (.oid n) ≠ "" := by
  intro h
  have hlen : ("oid-" ++ toString n).length = ("" : String).length :=
    congrArg String.length h
  rw [String.length_append] at hlen
  have h4 : ("oid-" : String).length = 4 := rfl
  have h0 : ("" : String).length = 0 := rfl
  omega

/-! ### Claim theorems -/

/-- Claim C1 (amended): for every configured database state and every valid
create-product input with `price >= 0`, the create operation returns a
non-empty string id, and a subsequent list operation with no category filter
whose limit covers the stored collection (here: at least one more than the
previous size) returns a sequence including a serialized record whose `id`
equals that string and whose `price` equals the input price as a float.  (As
stated, with the default limit of 50, the claim fails once 50 records already
exist — see the counterexample.) -/
theorem create_then_list_includes (db : DB) (p : ProductIn) (hp : 0 ≤ p.price)
    (limit : Int) (hl : db.product.length + 1 ≤ limit.toNat) :
    ∃ (pid : String) (db' : DB),
      create_product (some db) p = (.ok pid, some db')
      ∧ pid ≠ ""
      ∧ ∃ docs, list_products (some db') none limit = .ok docs
          ∧ ∃ d ∈ docs, lookup "id" d = some (.str pid)
              ∧ lookup "price" d = some (.num p.price) := by
  refine ⟨pyStr (.oid db.nextId), _, rfl, pyStr_oid_ne_empty db.nextId, ?_⟩
  have hfull : get_documents (filtOf none) limit ((create_document (productInDoc p) db).2)
      = db.product ++ [productInDoc p ++ [("_id", .oid db.nextId)]] := by
    unfold get_documents create_document filtOf
    have htrue : (db.product ++ [productInDoc p ++ [("_id", Value.oid db.nextId)]]).filter
        (fun d => matchesFilter [] d)
        = db.product ++ [productInDoc p ++ [("_id", Value.oid db.nextId)]] := by
      simp [matchesFilter]
    rw [htrue]
    apply List.take_of_length_le
    simpa using hl
  refine ⟨_, rfl,
    ⟨_serialize_product (productInDoc p ++ [("_id", .oid db.nextId)]), ?_, ?_, ?_⟩⟩
  · show _ ∈ (get_documents (filtOf none) limit
      ((create_document (productInDoc p) db).2)).map _serialize_product
    rw [hfull]
    exact List.mem_map_of_mem _
      (List.mem_append_right _ (List.mem_singleton_self _))
  · rw [serialize_productInDoc]
    simp [productInDoc, lookup]
  · rw [serialize_productInDoc]
    simp [productInDoc, lookup]

/-- Claim C1, witness: the amended theorem applied to the empty store, the
input `{title: Shoe, price: 12.5, category: Running}` and limit 50. -/
theorem create_then_list_includes_witness :
    0 ≤ (ProductIn.mk "Shoe" none (mkRat 25 2) "Running" true none).price
  ∧ (DB.mk [] 0).product.length + 1 ≤ (50 : Int).toNat
  ∧ ∃ (pid : String) (db' : DB),
      create_product (some (DB.mk [] 0))
          (ProductIn.mk "Shoe" none (mkRat 25 2) "Running" true none)
        = (.ok pid, some db')
      ∧ pid ≠ ""
      ∧ ∃ docs, list_products (some db') none 50 = .ok docs
          ∧ ∃ d ∈ docs, lookup "id" d = some (.str pid)
              ∧ lookup "price" d
                = some (.num (ProductIn.mk "Shoe" none (mkRat 25 2) "Running" true none).price) :=
  ⟨by decide, by decide,
   create_then_list_includes (DB.mk [] 0) _ (by decide) 50 (by decide)⟩

/-- Claim C1, counterexample to the claim as stated: with 50 records already
stored, creating a valid product (price 1 ≥ 0) succeeds with id `oid-50`, but
the subsequent list call with no filter (default limit 50) returns the 50 old
records and none of them carries the new id. -/
theorem create_then_list_default_counterexample :
    0 ≤ (ProductIn.mk "T" none (mkRat 1 1) "C" true none).price
  ∧ create_product (some (DB.mk (List.replicate 50 [("_id", Value.oid 0)]) 50))
      (ProductIn.mk "T" none (mkRat 1 1) "C" true none)
      = (.ok "oid-50",
         some (DB.mk (List.replicate 50 [("_id", Value.oid 0)]
            ++ [productInDoc (ProductIn.mk "T" none (mkRat 1 1) "C" true none)
                ++ [("_id", Value.oid 50)]]) 51))
  ∧ list_products
      (some (DB.mk (List.replicate 50 [("_id", Value.oid 0)]
          ++ [productInDoc (ProductIn.mk "T" none (mkRat 1 1) "C" true none)
              ++ [("_id", Value.oid 50)]]) 51))
      = .ok (List.replicate 50 [("id", Value.str "oid-0")])
  ∧ ∀ d ∈ (List.replicate 50 [("id", Value.str "oid-0")]),
      lookup "id" d ≠ some (Value.str "oid-50") :=
  ⟨by decide, by decide, by decide, by decide⟩

/-- Claim C2: seeding an empty collection inserts exactly the four predefined
sample records (recoverable by dropping the generated `_id`) and reports
`seeded = true` with count 4; seeding a non-empty collection performs no
insertion, leaves the state unchanged and reports `seeded = false`. -/
theorem seed_products_behavior :
    (∀ n : Nat, ∃ db' : DB,
       seed_products (some ⟨[], n⟩) = (.ok ⟨"ok", true, none, some 4⟩, some db')
       ∧ db'.product.length = 4
       ∧ db'.product.map (popKey "_id") = samples)
  ∧ (∀ db : DB, 0 < db.product.length →
       seed_products (some db)
         = (.ok ⟨"ok", false, some "Products already exist", none⟩, some db)) := by
  constructor
  · intro n
    refine ⟨_, rfl, rfl, ?_⟩
    simp [samples, popKey, create_document]
  · intro db h
    simp only [seed_products]
    rw [if_pos h]

/-- Claim C2, witness: seeding a store that already holds one document. -/
theorem seed_products_behavior_witness :
    0 < (DB.mk [[("title", Value.str "x")]] 3).product.length
  ∧ seed_products (some (DB.mk [[("title", Value.str "x")]] 3))
      = (.ok ⟨"ok", false, some "Products already exist", none⟩,
         some (DB.mk [[("title", Value.str "x")]] 3)) :=
  ⟨by decide, seed_products_behavior.2 _ (by decide)⟩

/-- Claim C3: a create request missing `title`, `price` or `category`, or
carrying a negative price, is rejected by validation with a 422 before the
handler runs, and the storage state is unchanged. -/
theorem create_validation_rejects (db? : Option DB) (r : RawProductIn)
    (h : r.title = none ∨ r.price = none ∨ r.category = none
       ∨ ∃ q, r.price = some q ∧ q < 0) :
    create_endpoint db? r = (.error ⟨422, "Unprocessable Entity"⟩, db?) := by
  rcases ht : r.title with _ | t
  · simp [create_endpoint, validateProductIn, ht]
  · rcases hp : r.price with _ | q
    · simp [create_endpoint, validateProductIn, ht, hp]
    · rcases hc : r.category with _ | c
      · simp [create_endpoint, validateProductIn, ht, hp, hc]
      · simp only [ht, hp, hc] at h
        have hq : q < 0 := by
          rcases h with h | h | h | ⟨q', hq', hlt⟩
          · cases h
          · cases h
          · cases h
          · cases hq'; exact hlt
        simp [create_endpoint, validateProductIn, ht, hp, hc, not_le.mpr hq]

/-- Claim C3, witness: create with `price = -1` on a configured empty store is
rejected with 422 and the store is unchanged. -/
theorem create_validation_rejects_witness :
    ((RawProductIn.mk (some "Shoe") none (some (mkRat (-1) 1)) (some "Running")
        none none).title = none
      ∨ (RawProductIn.mk (some "Shoe") none (some (mkRat (-1) 1)) (some "Running")
          none none).price = none
      ∨ (RawProductIn.mk (some "Shoe") none (some (mkRat (-1) 1)) (some "Running")
          none none).category = none
      ∨ ∃ q, (RawProductIn.mk (some "Shoe") none (some (mkRat (-1) 1)) (some "Running")
          none none).price = some q ∧ q < 0)
  ∧ create_endpoint (some (DB.mk [] 0))
      (RawProductIn.mk (some "Shoe") none (some (mkRat (-1) 1)) (some "Running") none none)
      = (.error ⟨422, "Unprocessable Entity"⟩, some (DB.mk [] 0)) :=
  ⟨Or.inr (Or.inr (Or.inr ⟨mkRat (-1) 1, rfl, by decide⟩)),
   create_validation_rejects _ _ (Or.inr (Or.inr (Or.inr ⟨mkRat (-1) 1, rfl, by decide⟩)))⟩

/-- Claim C4: serializing `{_id: X, price: "12.5"}` (any non-`None` `X`)
yields a record with string `id = str(X)`, no `_id` field, and `price = 12.5`
as a float; serializing `{_id: X, price: "abc"}` leaves `price` as the string
`"abc"`, raising no error.  (`mkRat 25 2` is the rational 12.5.) -/
theorem serialize_price_coercion (x : Value) (hx : x ≠ Value.null) :
    _serialize_product [("_id", x), ("price", .str "12.5")]
      = [("price", .num (mkRat 25 2)), ("id", .str (pyStr x))]
  ∧ _serialize_product [("_id", x), ("price", .str "abc")]
      = [("price", .str "abc"), ("id", .str (pyStr x))] := by
  have h125 : pyFloatOfString "12.5" = some (mkRat 25 2) := by decide
  have habc : pyFloatOfString "abc" = none := by decide
  constructor <;>
    simp [_serialize_product, _serialize_id_step, _serialize_price_step,
      lookup, setKey, popKey, pyFloat, hx, h125, habc]

/-- Claim C4, witness: the theorem at the concrete id `oid 7`. -/
theorem serialize_price_coercion_witness :
    (Value.oid 7 ≠ Value.null)
  ∧ (_serialize_product [("_id", .oid 7), ("price", .str "12.5")]
      = [("price", .num (mkRat 25 2)), ("id", .str (pyStr (.oid 7)))]
    ∧ _serialize_product [("_id", .oid 7), ("price", .str "abc")]
      = [("price", .str "abc"), ("id", .str (pyStr (.oid 7)))]) :=
  ⟨by decide, serialize_price_coercion (.oid 7) (by decide)⟩

/-- Claim C5, counterexample to the claim as stated: a pre-existing `id`
field is not passed through unchanged — serializing
`{id: "keep", _id: oid 1}` overwrites `id` with the string of `_id`. -/
theorem serialize_passthrough_counterexample :
    ¬ (∀ (d : Doc) (k : String), k ≠ "_id" → k ≠ "price" →
        lookup k (_serialize_product d) = lookup k d) := by
  intro h
  have hkeep := h [("id", .str "keep"), ("_id", .oid 1)] "id" (by decide) (by decide)
  exact absurd hkeep (by decide)

/-- Claim C5 (amended): the serialization transform is pure; an empty input is
returned unchanged, every field whose key is none of `_id`, `id`, `price`
passes through with its key and value unchanged, and the `id` field itself
also passes through whenever `_id` is absent or `None`.  (The input is not
mutated: the transform is a function of the input document.) -/
theorem serialize_passthrough :
    _serialize_product [] = []
  ∧ (∀ (d : Doc) (k : String), k ≠ "_id" → k ≠ "id" → k ≠ "price" →
       lookup k (_serialize_product d) = lookup k d)
  ∧ (∀ d : Doc,
       lookup "_id" d = none ∨ lookup "_id" d = some .null →
       lookup "id" (_serialize_product d) = lookup "id" d) := by
  refine ⟨rfl, fun d k h1 h2 h3 => lookup_serialize_ne k h1 h2 h3 d, ?_⟩
  intro d hid
  unfold _serialize_product
  split
  · rfl
  · have hstep : _serialize_id_step d = d := by
      unfold _serialize_id_step
      rcases hid with hid | hid <;> rw [hid]
      rfl
    rw [hstep, lookup_price_step_ne "id" (by decide)]

/-- Claim C5, witness: pass-through of a `category` field beside an `_id`, and
of an `id` field when `_id` is absent. -/
theorem serialize_passthrough_witness :
    (("category" : String) ≠ "_id" ∧ ("category" : String) ≠ "id"
      ∧ ("category" : String) ≠ "price"
      ∧ lookup "category"
          (_serialize_product [("category", .str "Running"), ("_id", .oid 2)])
          = lookup "category" [("category", .str "Running"), ("_id", .oid 2)])
  ∧ (lookup "_id" [("id", Value.str "x")] = none
      ∧ lookup "id" (_serialize_product [("id", Value.str "x")])
          = lookup "id" [("id", Value.str "x")]) :=
  ⟨⟨by decide, by decide, by decide,
    serialize_passthrough.2.1 _ "category" (by decide) (by decide) (by decide)⟩,
   ⟨by decide, serialize_passthrough.2.2 _ (Or.inl (by decide))⟩⟩

/-- Claim C6: for every stored collection state and every integer limit, the
list operation succeeds and returns `min limit (collection size)` records —
in particular at most `limit` and, since limit is unrestricted, all matching
records once `limit` is large enough; omitting the limit is the same call
with the default limit 50. -/
theorem list_products_limit :
    (∀ (db : DB) (limit : Int),
       ∃ docs, list_products (some db) none limit = .ok docs
         ∧ docs.length = min limit.toNat db.product.length)
  ∧ (∀ (db? : Option DB) (category : Option String),
       list_products db? category = list_products db? category 50) := by
  constructor
  · intro db limit
    refine ⟨_, rfl, ?_⟩
    simp [list_products, get_documents, filtOf, matchesFilter]
  · intro db? c
    rfl

/-- Claim C7: listing with `category = "Running"` returns only records whose
stored `category` equals exactly `"Running"`; a given non-empty category
builds the filter `{category: value}`, no category builds the empty filter. -/
theorem list_products_category_exact :
    (∀ (db : DB) (limit : Int) (docs : List Doc),
       list_products (some db) (some "Running") limit = .ok docs →
       ∀ d ∈ docs, lookup "category" d = some (.str "Running"))
  ∧ (∀ c : String, c ≠ "" → filtOf (some c) = [("category", .str c)])
  ∧ filtOf none = [] := by
  refine ⟨?_, ?_, rfl⟩
  · intro db limit docs h d hd
    have hdocs : docs
        = ((db.product.filter
            (fun x => matchesFilter (filtOf (some "Running")) x)).take limit.toNat).map
          _serialize_product := by
      simpa [list_products, get_documents] using h.symm
    subst hdocs
    obtain ⟨d0, hd0, rfl⟩ := List.mem_map.mp hd
    have hd0' : d0 ∈ db.product.filter
        (fun x => matchesFilter (filtOf (some "Running")) x) :=
      List.take_subset _ _ hd0
    have hmf : matchesFilter (filtOf (some "Running")) d0 = true :=
      (List.mem_filter.mp hd0').2
    have hcat : lookup "category" d0 = some (.str "Running") := by
      simpa [matchesFilter, filtOf] using hmf
    rw [lookup_serialize_ne "category" (by decide) (by decide) (by decide), hcat]
  · intro c hc
    simp [filtOf, hc]

/-- Claim C7, witness: the filter built for `"Running"`, and the filtered
listing of a one-record store. -/
theorem list_products_category_exact_witness :
    (("Running" : String) ≠ ""
      ∧ filtOf (some "Running") = [("category", .str "Running")])
  ∧ (list_products (some (DB.mk [[("category", Value.str "Running")]] 0)) (some "Running") 50
        = .ok [[("category", Value.str "Running")]]
      ∧ ∀ d ∈ [[("category", Value.str "Running")]],
          lookup "category" d = some (.str "Running")) :=
  ⟨⟨by decide, list_products_category_exact.2.1 "Running" (by decide)⟩,
   ⟨by decide,
    list_products_category_exact.1 (DB.mk [[("category", Value.str "Running")]] 0) 50
      [[("category", Value.str "Running")]] (by decide)⟩⟩

/-- Claim C8: with the database handle unconfigured (`None`), list, create and
seed each fail immediately with the 500 "Database not configured" error and
touch no storage (the returned state is unchanged — there is none). -/
theorem unconfigured_db_500 :
    (∀ (category : Option String) (limit : Int),
       list_products none category limit = .error ⟨500, "Database not configured"⟩)
  ∧ (∀ p : ProductIn,
       create_product none p = (.error ⟨500, "Database not configured"⟩, none))
  ∧ seed_products none = (.error ⟨500, "Database not configured"⟩, none) :=
  ⟨fun _ _ => rfl, fun _ => rfl, rfl⟩

/-- Claim C9, counterexample to the claim as stated: with storage
unconfigured the diagnostics response's `database` field is
`"⚠️  Available but not initialized"`, not the endpoint's not-available
message `"❌ Not Available"`. -/
theorem test_database_unconfigured_counterexample :
    ¬ (test_database none false false).database = "❌ Not Available" := by decide

/-- Claim C9 (amended): the diagnostics operation always returns a status
object and never raises: with storage unconfigured it reports connection
status "Not Connected" and the database as "Available but not initialized";
when collection introspection throws, only the `database` field degrades to
the error message (truncated to 50 characters) — connection status and the
rest of the report survive. -/
theorem test_database_degrades :
    (∀ u v : Bool,
       test_database none u v
         = ⟨"✅ Running", "⚠️  Available but not initialized",
            if u then "✅ Set" else "❌ Not Set",
            if v then "✅ Set" else "❌ Not Set",
            "Not Connected", []⟩)
  ∧ (∀ (d : DiagDB) (u v : Bool) (e : String),
       d.listCollections = .error e →
       test_database (some d) u v
         = ⟨"✅ Running", "⚠️  Connected but Error: " ++ e.take 50,
            if u then "✅ Set" else "❌ Not Set",
            if v then "✅ Set" else "❌ Not Set",
            "Connected", []⟩) := by
  constructor
  · intro u v
    rfl
  · intro d u v e he
    simp [test_database, he]

/-- Claim C9, witness: a connected handle whose introspection throws
`"boom"`. -/
theorem test_database_degrades_witness :
    (DiagDB.mk (some "appdb") (.error "boom")).listCollections = .error "boom"
  ∧ test_database (some (DiagDB.mk (some "appdb") (.error "boom"))) true false
      = ⟨"✅ Running", "⚠️  Connected but Error: " ++ ("boom").take 50,
         if true then "✅ Set" else "❌ Not Set",
         if false then "✅ Set" else "❌ Not Set",
         "Connected", []⟩ :=
  ⟨rfl, test_database_degrades.2 _ true false "boom" rfl⟩

/-- Claim C10: listing with `category = ""` builds the empty filter, exactly
as listing with no category at all — records of every category are
returned. -/
theorem empty_category_matches_all :
    (∀ (db : DB) (limit : Int),
       list_products (some db) (some "") limit = list_products (some db) none limit)
  ∧ filtOf (some "") = [] :=
  ⟨fun _ _ => rfl, rfl⟩

end AthleticStore
